import Mathlib

/-!
Shallow embedding of the wizard controller in
`src/Bhujal.io/project/src/pages/AIReports.tsx` (the whole repository source).

The component owns five pieces of React state: `currentStep`, `isGenerating`,
`error`, `reportData`, `formData`.  Each event handler is embedded as a pure
function from the state (plus, where the handler awaits an external
collaborator, the collaborator outcome) to the next state.  The external
Report Service and Report Renderer are modelled by their outcome alone
(`ServiceResult`, a Bool for the renderer), since the component only observes
whether the awaited call resolved or threw and, on a throw, the message.
-/

namespace AIReports

/-- A wizard question: identifier, prompt text and selectable option strings
(`interface Question`, lines 9-13 of AIReports.tsx). -/
structure Question where
  id : String
  text : String
  options : List String
  deriving Repr, DecidableEq

/-- The static question catalog (lines 22-43). -/
def questions : List Question :=
  [⟨"reportType", "What type of report do you need?",
    ["Groundwater Level Analysis", "Water Quality Assessment",
     "Aquifer Characterization", "Sustainability Analysis"]⟩,
   ⟨"period", "Select the time period for analysis",
    ["Last 6 months", "Last 1 year", "Last 5 years", "Last 10 years"]⟩]

/-- The fixed parameter catalog (lines 45-54). -/
def parameterCatalog : List String :=
  ["pH Level", "Total Dissolved Solids (TDS)", "Chloride Content",
   "Fluoride Level", "Nitrate Concentration", "Groundwater Level",
   "Recharge Rate", "Extraction Rate"]

/-- The processed report returned by the Report Service.  The component treats
it as opaque (stored, handed to the renderer); we model it as a wrapper over
its payload. -/
structure ProcessedReport where
  content : String
  deriving Repr, DecidableEq

/-- `interface FormData` (lines 15-20): the typed record view of the form
object.  The dynamic-key write performed by `handleOptionSelect` is modelled
exactly on the raw-object representation below (`jsHandleOptionSelect`). -/
structure FormData where
  reportType : String
  location : String
  period : String
  parameters : List String
  deriving Repr, DecidableEq

/-- The five `useState` cells of the component (lines 57-66). -/
structure WizardState where
  currentStep : Nat
  isGenerating : Bool
  error : Option String
  reportData : Option ProcessedReport
  formData : FormData
  deriving Repr, DecidableEq

/-- Initial state at mount (lines 57-66): step 0, not generating, no error,
no report, all form fields empty. -/
def initialState : WizardState :=
  ⟨0, false, none, none, ⟨"", "", "", []⟩⟩

/-- `handleOptionSelect` (lines 68-74): writes `value` under the key
`questionId` of the form object via a spread with a computed key, then clears
`error`.  On the typed record this updates the matching declared string field;
a key outside the declared fields would create a property the component never
reads, so it is unobservable on this view (the exact raw-object semantics,
including such keys, is `jsHandleOptionSelect` below).  The component itself
only invokes this handler with `question.id` for `question` drawn from
`questions` (line 164), i.e. with "reportType" or "period". -/
def handleOptionSelect (s : WizardState) (questionId value : String) : WizardState :=
  if questionId = "reportType" then
    { s with formData := { s.formData with reportType := value }, error := none }
  else if questionId = "period" then
    { s with formData := { s.formData with period := value }, error := none }
  else if questionId = "location" then
    { s with formData := { s.formData with location := value }, error := none }
  else
    { s with error := none }

/-- `handleLocationChange` (lines 76-82): stores the value verbatim in
`formData.location` and clears `error`. -/
def handleLocationChange (s : WizardState) (value : String) : WizardState :=
  { s with formData := { s.formData with location := value }, error := none }

/-- The parameter-list update inside `handleParameterToggle` (lines 85-90):
if the name is present, remove every occurrence (`filter(p => p !== parameter)`);
otherwise append it. -/
def toggledParameters (params : List String) (x : String) : List String :=
  if x ∈ params then params.filter (fun p => p != x) else params ++ [x]

/-- `handleParameterToggle` (lines 84-92): toggles the parameter in
`formData.parameters` and clears `error`. -/
def handleParameterToggle (s : WizardState) (x : String) : WizardState :=
  { s with
      formData := { s.formData with parameters := toggledParameters s.formData.parameters x },
      error := none }

/-- The JavaScript `String.prototype.trim()` used on line 95: removes
whitespace from both ends of the string.  Modelled on the underlying
character list so that it evaluates by structural recursion. -/
def jsTrim (s : String) : String :=
  String.mk ((((s.data.dropWhile Char.isWhitespace).reverse).dropWhile
    Char.isWhitespace).reverse)

/-- Outcome of the awaited Report Service call in `handleGenerateReport`
(line 106): either it resolves with a processed report, or it throws.  A
thrown `Error` carries its `message` (`some msg`); a thrown non-`Error` value
carries none (`none`), matching the `err instanceof Error` test on line 109. -/
inductive ServiceResult where
  | success (report : ProcessedReport)
  | failure (message : Option String)
  deriving Repr, DecidableEq

/-- Result of running `handleGenerateReport`: the next state, plus whether the
Report Service was actually invoked (line 106 reached). -/
structure GenerateResult where
  state : WizardState
  serviceCalled : Bool
  deriving Repr, DecidableEq

/-- `handleGenerateReport` (lines 94-113), run to completion.  Blank
(whitespace-only) location: set the validation error and return without
calling the service (lines 95-98).  Otherwise the service is called; on
resolve the report is stored (line 107) with `error` still null from line 101;
on throw `error` becomes the `Error` message or the generic fallback
(line 109), `reportData` untouched.  The `finally` on lines 110-112 resets
`isGenerating` to false in both outcomes. -/
def handleGenerateReport (s : WizardState) (svc : ServiceResult) : GenerateResult :=
  if jsTrim s.formData.location = "" then
    ⟨{ s with error := some "Please enter a location" }, false⟩
  else
    match svc with
    | ServiceResult.success r =>
        ⟨{ s with isGenerating := false, error := none, reportData := some r }, true⟩
    | ServiceResult.failure m =>
        ⟨{ s with isGenerating := false,
                  error := some (m.getD "Failed to generate report") }, true⟩

/-- `handleDownloadPDF` (lines 115-124), run to completion, given whether the
Report Renderer call resolves.  Only acts when `reportData` is set; on a
renderer throw it sets the fixed message "Failed to download PDF" and touches
nothing else. -/
def handleDownloadPDF (s : WizardState) (rendererResolves : Bool) : WizardState :=
  if s.reportData.isSome then
    if rendererResolves then s else { s with error := some "Failed to download PDF" }
  else s

/-- Field lookup `formData[id]` used by the Next-button guard (line 215);
the guard reads the field named by `questions[currentStep].id` and disables
the button when it is falsy (empty string). -/
def formField (fd : FormData) : String → String
  | "reportType" => fd.reportType
  | "period" => fd.period
  | "location" => fd.location
  | _ => ""

/-- The Previous button (lines 203-209): `onClick` decrements `currentStep`,
but the button carries `disabled={currentStep === 0}`, so at step 0 the click
cannot fire and the action is a no-op. -/
def clickPrevious (s : WizardState) : WizardState :=
  if s.currentStep = 0 then s else { s with currentStep := s.currentStep - 1 }

/-- The Next button (lines 211-218): rendered only while
`currentStep < questions.length`, `onClick` increments `currentStep`, and
`disabled={!formData[questions[currentStep].id]}` blocks it while the active
question has no stored answer. -/
def clickNext (s : WizardState) : WizardState :=
  if h : s.currentStep < questions.length then
    if formField s.formData (questions.get ⟨s.currentStep, h⟩).id = "" then s
    else { s with currentStep := s.currentStep + 1 }
  else s

/-- The three render targets of `renderCurrentStep`. -/
inductive View where
  | result
  | details
  | question (index : Nat)
  deriving Repr, DecidableEq

/-- `renderCurrentStep` (lines 126-167): Result view whenever `reportData` is
set; else the Details (location + parameters) screen at
`currentStep === questions.length`; else the question at index
`currentStep`. -/
def renderCurrentStep (s : WizardState) : View :=
  if s.reportData.isSome then View.result
  else if s.currentStep = questions.length then View.details
  else View.question s.currentStep

/-- The editing and navigation actions quantified over in the terminal-state
property: option selection, parameter toggling, and the two step-changing
buttons (the only `setCurrentStep` call sites, lines 205 and 214). -/
inductive EditAction where
  | selectOption (questionId value : String)
  | toggleParameter (name : String)
  | goPrevious
  | goNext
  deriving Repr, DecidableEq

/-- Apply one editing action to the state. -/
def applyEdit (s : WizardState) : EditAction → WizardState
  | EditAction.selectOption q v => handleOptionSelect s q v
  | EditAction.toggleParameter n => handleParameterToggle s n
  | EditAction.goPrevious => clickPrevious s
  | EditAction.goNext => clickNext s

/-- Apply a sequence of editing actions from left to right. -/
def applyEdits (s : WizardState) (edits : List EditAction) : WizardState :=
  edits.foldl applyEdit s

/-- A JavaScript value stored in the raw form object: a string or a list of
strings (the two value shapes the component ever writes). -/
inductive JSValue where
  | str (s : String)
  | strList (l : List String)
  deriving Repr, DecidableEq

/-- A JavaScript object as an ordered association list with distinct keys
(key order models property insertion order). -/
def JSObject : Type := List (String × JSValue)

/-- The spread `({...prev, [k]: v})`: if `k` is already a property its value
is replaced in place, otherwise the property is appended. -/
def setKey : List (String × JSValue) → String → JSValue → List (String × JSValue)
  | [], k, v => [(k, v)]
  | (k0, v0) :: rest, k, v =>
      if k0 = k then (k, v) :: rest else (k0, v0) :: setKey rest k v

/-- Property lookup on the raw object. -/
def getKey : List (String × JSValue) → String → Option JSValue
  | [], _ => none
  | (k0, v0) :: rest, k => if k0 = k then some v0 else getKey rest k

/-- `handleOptionSelect`, exact raw-object semantics of its form update
(lines 69-72): `setFormData(prev => ({...prev, [questionId]: value}))` writes
the string `value` under the computed key `questionId`, whatever that key
is. -/
def jsHandleOptionSelect (obj : List (String × JSValue)) (questionId value : String) :
    List (String × JSValue) :=
  setKey obj questionId (JSValue.str value)

/-- The initial form object of lines 61-66 in the raw representation. -/
def initialFormObject : List (String × JSValue) :=
  [("reportType", JSValue.str ""), ("location", JSValue.str ""),
   ("period", JSValue.str ""), ("parameters", JSValue.strList [])]

/-- States reachable from mount through the wired-up UI handlers.
`handleOptionSelect` appears with `q.id` for `q ∈ questions` because its only
call site is `onSelect={(value) => handleOptionSelect(question.id, value)}`
(line 164) with `question` drawn from `questions`. -/
inductive Reachable : WizardState → Prop where
  | init : Reachable initialState
  | selectOption {s : WizardState} (q : Question) (v : String) :
      q ∈ questions → Reachable s → Reachable (handleOptionSelect s q.id v)
  | setLocation {s : WizardState} (v : String) :
      Reachable s → Reachable (handleLocationChange s v)
  | toggleParameter {s : WizardState} (x : String) :
      Reachable s → Reachable (handleParameterToggle s x)
  | goPrevious {s : WizardState} : Reachable s → Reachable (clickPrevious s)
  | goNext {s : WizardState} : Reachable s → Reachable (clickNext s)
  | generate {s : WizardState} (svc : ServiceResult) :
      Reachable s → Reachable (handleGenerateReport s svc).state
  | download {s : WizardState} (ok : Bool) :
      Reachable s → Reachable (handleDownloadPDF s ok)

/-! ## Theorems -/

/-- C1: whenever `formData.location` trims to the empty string (whatever
`formData.parameters` holds), `handleGenerateReport` performs no Report
Service call, sets `error` to exactly "Please enter a location", and leaves
`isGenerating` false afterward. -/
theorem generate_blankLocation_noServiceCall (s : WizardState) (svc : ServiceResult)
    (hloc : jsTrim s.formData.location = "") (hgen : s.isGenerating = false) :
    (handleGenerateReport s svc).serviceCalled = false ∧
    (handleGenerateReport s svc).state.error = some "Please enter a location" ∧
    (handleGenerateReport s svc).state.isGenerating = false := by
  simp [handleGenerateReport, hloc, hgen]

/-- Witness for C1: Scenario B state (whitespace-only location, parameters
`["pH Level"]`). -/
theorem generate_blankLocation_noServiceCall_witness :
    jsTrim (WizardState.mk 2 false none none
      (FormData.mk "" "  " "" ["pH Level"])).formData.location = "" ∧
    (WizardState.mk 2 false none none
      (FormData.mk "" "  " "" ["pH Level"])).isGenerating = false ∧
    ((handleGenerateReport (WizardState.mk 2 false none none
        (FormData.mk "" "  " "" ["pH Level"])) (ServiceResult.failure none)).serviceCalled = false ∧
     (handleGenerateReport (WizardState.mk 2 false none none
        (FormData.mk "" "  " "" ["pH Level"])) (ServiceResult.failure none)).state.error =
          some "Please enter a location" ∧
     (handleGenerateReport (WizardState.mk 2 false none none
        (FormData.mk "" "  " "" ["pH Level"])) (ServiceResult.failure none)).state.isGenerating = false) :=
  ⟨by decide, rfl, generate_blankLocation_noServiceCall _ _ (by decide) rfl⟩

/-- C2: with a non-blank location, when the Report Service resolves with `r`,
afterward `reportData = some r`, `isGenerating` is false and `error` is
unset. -/
theorem generate_success_storesReport (s : WizardState) (r : ProcessedReport)
    (hloc : jsTrim s.formData.location ≠ "") :
    (handleGenerateReport s (ServiceResult.success r)).state.reportData = some r ∧
    (handleGenerateReport s (ServiceResult.success r)).state.isGenerating = false ∧
    (handleGenerateReport s (ServiceResult.success r)).state.error = none := by
  simp [handleGenerateReport, hloc]

/-- Witness for C2: Scenario D state (`location = "Jaipur"`,
`parameters = ["pH Level", "Fluoride Level"]`). -/
theorem generate_success_storesReport_witness :
    jsTrim (WizardState.mk 2 false none none
      (FormData.mk "Water Quality Assessment" "Jaipur" "Last 1 year"
        ["pH Level", "Fluoride Level"])).formData.location ≠ "" ∧
    ((handleGenerateReport (WizardState.mk 2 false none none
        (FormData.mk "Water Quality Assessment" "Jaipur" "Last 1 year"
          ["pH Level", "Fluoride Level"]))
        (ServiceResult.success (ProcessedReport.mk "report"))).state.reportData =
          some (ProcessedReport.mk "report") ∧
     (handleGenerateReport (WizardState.mk 2 false none none
        (FormData.mk "Water Quality Assessment" "Jaipur" "Last 1 year"
          ["pH Level", "Fluoride Level"]))
        (ServiceResult.success (ProcessedReport.mk "report"))).state.isGenerating = false ∧
     (handleGenerateReport (WizardState.mk 2 false none none
        (FormData.mk "Water Quality Assessment" "Jaipur" "Last 1 year"
          ["pH Level", "Fluoride Level"]))
        (ServiceResult.success (ProcessedReport.mk "report"))).state.error = none) :=
  ⟨by decide, generate_success_storesReport _ _ (by decide)⟩

/-- C3: with a non-blank location and no report yet, when the Report Service
call throws, afterward `error` is the thrown `Error` message when there is
one and the generic "Failed to generate report" otherwise, `reportData`
remains unset, and `isGenerating` is false. -/
theorem generate_failure_setsError (s : WizardState) (m : Option String)
    (hloc : jsTrim s.formData.location ≠ "") (hrep : s.reportData = none) :
    (handleGenerateReport s (ServiceResult.failure m)).state.error =
      some (m.getD "Failed to generate report") ∧
    (handleGenerateReport s (ServiceResult.failure m)).state.reportData = none ∧
    (handleGenerateReport s (ServiceResult.failure m)).state.isGenerating = false := by
  simp [handleGenerateReport, hloc, hrep]

/-- Witness for C3: Scenario E, rejection with message "rate limited". -/
theorem generate_failure_setsError_witness :
    jsTrim (WizardState.mk 2 false none none
      (FormData.mk "Water Quality Assessment" "Jaipur" "Last 1 year"
        ["pH Level", "Fluoride Level"])).formData.location ≠ "" ∧
    (WizardState.mk 2 false none none
      (FormData.mk "Water Quality Assessment" "Jaipur" "Last 1 year"
        ["pH Level", "Fluoride Level"])).reportData = none ∧
    ((handleGenerateReport (WizardState.mk 2 false none none
        (FormData.mk "Water Quality Assessment" "Jaipur" "Last 1 year"
          ["pH Level", "Fluoride Level"]))
        (ServiceResult.failure (some "rate limited"))).state.error = some "rate limited" ∧
     (handleGenerateReport (WizardState.mk 2 false none none
        (FormData.mk "Water Quality Assessment" "Jaipur" "Last 1 year"
          ["pH Level", "Fluoride Level"]))
        (ServiceResult.failure (some "rate limited"))).state.reportData = none ∧
     (handleGenerateReport (WizardState.mk 2 false none none
        (FormData.mk "Water Quality Assessment" "Jaipur" "Last 1 year"
          ["pH Level", "Fluoride Level"]))
        (ServiceResult.failure (some "rate limited"))).state.isGenerating = false) :=
  ⟨by decide, rfl, generate_failure_setsError _ (some "rate limited") (by decide) rfl⟩

/-- C7: at `currentStep = 0` the Previous action is a no-op, `currentStep`
stays 0 (the button carries `disabled={currentStep === 0}`). -/
theorem previous_at_zero_noop (s : WizardState) (h : s.currentStep = 0) :
    (clickPrevious s).currentStep = 0 := by
  simp [clickPrevious, h]

/-- Witness for C7: the initial state. -/
theorem previous_at_zero_noop_witness :
    initialState.currentStep = 0 ∧ (clickPrevious initialState).currentStep = 0 :=
  ⟨rfl, previous_at_zero_noop initialState rfl⟩

/-- C8: with `reportData` set, when the Report Renderer call throws during
download, `error` becomes exactly "Failed to download PDF" and both
`reportData` and `currentStep` are unchanged. -/
theorem download_failure_frame (s : WizardState) (r : ProcessedReport)
    (h : s.reportData = some r) :
    (handleDownloadPDF s false).error = some "Failed to download PDF" ∧
    (handleDownloadPDF s false).reportData = s.reportData ∧
    (handleDownloadPDF s false).currentStep = s.currentStep := by
  simp [handleDownloadPDF, h]

/-- Witness for C8: a concrete state holding a report. -/
theorem download_failure_frame_witness :
    (WizardState.mk 2 false none (some (ProcessedReport.mk "report"))
      (FormData.mk "" "Jaipur" "" ["pH Level"])).reportData =
        some (ProcessedReport.mk "report") ∧
    ((handleDownloadPDF (WizardState.mk 2 false none (some (ProcessedReport.mk "report"))
        (FormData.mk "" "Jaipur" "" ["pH Level"])) false).error =
          some "Failed to download PDF" ∧
     (handleDownloadPDF (WizardState.mk 2 false none (some (ProcessedReport.mk "report"))
        (FormData.mk "" "Jaipur" "" ["pH Level"])) false).reportData =
          (WizardState.mk 2 false none (some (ProcessedReport.mk "report"))
            (FormData.mk "" "Jaipur" "" ["pH Level"])).reportData ∧
     (handleDownloadPDF (WizardState.mk 2 false none (some (ProcessedReport.mk "report"))
        (FormData.mk "" "Jaipur" "" ["pH Level"])) false).currentStep =
          (WizardState.mk 2 false none (some (ProcessedReport.mk "report"))
            (FormData.mk "" "Jaipur" "" ["pH Level"])).currentStep) :=
  ⟨rfl, download_failure_frame _ (ProcessedReport.mk "report") rfl⟩

/-- Every editing action leaves `reportData` untouched: none of the handlers
behind it ever calls `setReportData`. -/
theorem applyEdit_reportData (s : WizardState) (a : EditAction) :
    (applyEdit s a).reportData = s.reportData := by
  cases a with
  | selectOption q v =>
      simp only [applyEdit, handleOptionSelect]
      split_ifs <;> rfl
  | toggleParameter n => rfl
  | goPrevious =>
      simp only [applyEdit, clickPrevious]
      split_ifs <;> rfl
  | goNext =>
      simp only [applyEdit, clickNext]
      split <;> [skip; rfl]
      split_ifs <;> rfl

/-- C4: once `reportData` holds a report, the rendering selection yields the
Result view, and no sequence of option selections, parameter toggles or step
navigation changes `reportData` or moves the rendered view away from the
Result view. -/
theorem result_view_terminal (s : WizardState) (r : ProcessedReport)
    (edits : List EditAction) (h : s.reportData = some r) :
    (applyEdits s edits).reportData = some r ∧
    renderCurrentStep (applyEdits s edits) = View.result := by
  have hrd : (applyEdits s edits).reportData = some r := by
    induction edits generalizing s with
    | nil => simpa [applyEdits] using h
    | cons a rest ih =>
        simp only [applyEdits, List.foldl_cons] at ih ⊢
        exact ih (applyEdit s a) ((applyEdit_reportData s a).trans h)
  exact ⟨hrd, by simp [renderCurrentStep, hrd]⟩

/-- Witness for C4: a state holding a report, edited by a toggle, a selection
and both navigation clicks. -/
theorem result_view_terminal_witness :
    (WizardState.mk 2 false none (some (ProcessedReport.mk "report"))
      (FormData.mk "" "Jaipur" "" ["pH Level"])).reportData =
        some (ProcessedReport.mk "report") ∧
    ((applyEdits (WizardState.mk 2 false none (some (ProcessedReport.mk "report"))
        (FormData.mk "" "Jaipur" "" ["pH Level"]))
        [EditAction.toggleParameter "pH Level", EditAction.selectOption "period" "Last 1 year",
         EditAction.goPrevious, EditAction.goNext]).reportData =
          some (ProcessedReport.mk "report") ∧
     renderCurrentStep (applyEdits (WizardState.mk 2 false none
        (some (ProcessedReport.mk "report")) (FormData.mk "" "Jaipur" "" ["pH Level"]))
        [EditAction.toggleParameter "pH Level", EditAction.selectOption "period" "Last 1 year",
         EditAction.goPrevious, EditAction.goNext]) = View.result) :=
  ⟨rfl, result_view_terminal _ (ProcessedReport.mk "report") _ rfl⟩

/-- C5: whenever `error` is set, each of `handleOptionSelect`,
`handleLocationChange` and `handleParameterToggle` clears it to unset,
whatever arguments are supplied (each handler ends in `setError(null)`). -/
theorem field_mutation_clears_error (s : WizardState) (q v w x : String)
    (_h : s.error.isSome = true) :
    (handleOptionSelect s q v).error = none ∧
    (handleLocationChange s w).error = none ∧
    (handleParameterToggle s x).error = none := by
  refine ⟨?_, rfl, rfl⟩
  simp only [handleOptionSelect]
  split_ifs <;> rfl

/-- Witness for C5: a state showing the validation error, mutated with
concrete arguments. -/
theorem field_mutation_clears_error_witness :
    (WizardState.mk 2 false (some "Please enter a location") none
      (FormData.mk "" "" "" [])).error.isSome = true ∧
    ((handleOptionSelect (WizardState.mk 2 false (some "Please enter a location") none
        (FormData.mk "" "" "" [])) "reportType" "Water Quality Assessment").error = none ∧
     (handleLocationChange (WizardState.mk 2 false (some "Please enter a location") none
        (FormData.mk "" "" "" [])) "Jaipur").error = none ∧
     (handleParameterToggle (WizardState.mk 2 false (some "Please enter a location") none
        (FormData.mk "" "" "" [])) "pH Level").error = none) :=
  ⟨rfl, field_mutation_clears_error _ "reportType" "Water Quality Assessment" "Jaipur"
    "pH Level" rfl⟩

/-- Toggling twice preserves membership of the parameter list: the first
toggle removes (or appends) `x`, the second reinstates (or removes) it. -/
theorem mem_toggledParameters_twice (params : List String) (x p : String) :
    p ∈ toggledParameters (toggledParameters params x) x ↔ p ∈ params := by
  by_cases hx : x ∈ params
  · have hxf : x ∉ params.filter (fun q => q != x) := by
      simp [List.mem_filter]
    simp only [toggledParameters, if_pos hx, if_neg hxf]
    by_cases hp : p = x
    · subst hp
      simp [hx]
    · simp [List.mem_filter, List.mem_append, hp, bne_iff_ne]
  · have hx2 : x ∈ params ++ [x] := by simp
    simp only [toggledParameters, if_neg hx, if_pos hx2]
    simp only [List.mem_filter, List.mem_append, List.mem_singleton, bne_iff_ne]
    constructor
    · rintro ⟨hp | hp, hne⟩
      · exact hp
      · exact absurd hp hne
    · intro hp
      exact ⟨Or.inl hp, fun e => hx (e ▸ hp)⟩

/-- Counterexample to C6 as stated: toggling an already selected parameter
twice does not restore the original list value.  From
`["pH Level", "Fluoride Level"]`, toggling "pH Level" removes it and the
second toggle appends it at the end, yielding
`["Fluoride Level", "pH Level"]`. -/
theorem toggle_twice_not_listIdentity :
    (handleParameterToggle (handleParameterToggle
        (WizardState.mk 2 false none none
          (FormData.mk "" "" "" ["pH Level", "Fluoride Level"])) "pH Level")
        "pH Level").formData.parameters ≠ ["pH Level", "Fluoride Level"] := by
  decide

/-- C6 (amended): toggling a parameter twice in succession restores the
membership of `formData.parameters` — every parameter is selected afterward
exactly when it was selected before — though the stored list may differ as a
sequence (the toggled parameter moves to the end). -/
theorem toggle_twice_membership (s : WizardState) (x p : String) :
    p ∈ (handleParameterToggle (handleParameterToggle s x) x).formData.parameters ↔
      p ∈ s.formData.parameters := by
  simp only [handleParameterToggle]
  exact mem_toggledParameters_twice s.formData.parameters x p

/-- `handleOptionSelect` never touches the parameter list: every branch of
the key dispatch updates a string field (or nothing observable). -/
theorem handleOptionSelect_parameters (s : WizardState) (q v : String) :
    (handleOptionSelect s q v).formData.parameters = s.formData.parameters := by
  simp only [handleOptionSelect]
  split_ifs <;> rfl

/-- Neither navigation button touches the form data. -/
theorem click_formData (s : WizardState) :
    (clickPrevious s).formData = s.formData ∧ (clickNext s).formData = s.formData := by
  constructor
  · simp only [clickPrevious]
    split_ifs <;> rfl
  · simp only [clickNext]
    split <;> [skip; rfl]
    split_ifs <;> rfl

/-- `handleGenerateReport` never touches the form data. -/
theorem handleGenerateReport_formData (s : WizardState) (svc : ServiceResult) :
    (handleGenerateReport s svc).state.formData = s.formData := by
  simp only [handleGenerateReport]
  split <;> [rfl; cases svc <;> rfl]

/-- `handleDownloadPDF` never touches the form data. -/
theorem handleDownloadPDF_formData (s : WizardState) (ok : Bool) :
    (handleDownloadPDF s ok).formData = s.formData := by
  simp only [handleDownloadPDF]
  split_ifs <;> rfl

/-- A toggle keeps the parameter list duplicate-free: removal filters, and an
append only happens when the name was absent. -/
theorem toggledParameters_nodup (params : List String) (x : String)
    (h : params.Nodup) : (toggledParameters params x).Nodup := by
  simp only [toggledParameters]
  split_ifs with hx
  · exact h.filter _
  · simp [List.nodup_append, h, hx]

/-- C9: from the initial empty form, every reachable `formData.parameters`
list is duplicate-free: `handleParameterToggle` preserves pairwise
distinctness, and no other wired-up operation modifies the list at all. -/
theorem reachable_parameters_nodup :
    (∀ s : WizardState, Reachable s → s.formData.parameters.Nodup) ∧
    (∀ (params : List String) (x : String), params.Nodup →
      (toggledParameters params x).Nodup) ∧
    (∀ (s : WizardState) (q : Question) (v : String), q ∈ questions →
      (handleOptionSelect s q.id v).formData.parameters = s.formData.parameters) ∧
    (∀ (s : WizardState) (v : String),
      (handleLocationChange s v).formData.parameters = s.formData.parameters) ∧
    (∀ s : WizardState, (clickPrevious s).formData.parameters = s.formData.parameters ∧
      (clickNext s).formData.parameters = s.formData.parameters) ∧
    (∀ (s : WizardState) (svc : ServiceResult),
      (handleGenerateReport s svc).state.formData.parameters = s.formData.parameters) ∧
    (∀ (s : WizardState) (ok : Bool),
      (handleDownloadPDF s ok).formData.parameters = s.formData.parameters) := by
  refine ⟨?_, toggledParameters_nodup, fun s q v hq => handleOptionSelect_parameters s q.id v,
    fun s v => rfl,
    fun s => ⟨congrArg FormData.parameters (click_formData s).1,
              congrArg FormData.parameters (click_formData s).2⟩,
    fun s svc => congrArg FormData.parameters (handleGenerateReport_formData s svc),
    fun s ok => congrArg FormData.parameters (handleDownloadPDF_formData s ok)⟩
  intro s h
  induction h with
  | init => exact List.nodup_nil
  | selectOption q v hq hr ih =>
      rw [handleOptionSelect_parameters]
      exact ih
  | setLocation v hr ih => exact ih
  | toggleParameter x hr ih => exact toggledParameters_nodup _ _ ih
  | goPrevious hr ih =>
      rw [congrArg FormData.parameters (click_formData _).1]
      exact ih
  | goNext hr ih =>
      rw [congrArg FormData.parameters (click_formData _).2]
      exact ih
  | generate svc hr ih =>
      rw [congrArg FormData.parameters (handleGenerateReport_formData _ svc)]
      exact ih
  | download ok hr ih =>
      rw [congrArg FormData.parameters (handleDownloadPDF_formData _ ok)]
      exact ih

/-- Witness for C9: the state reached by one toggle from mount, whose
parameter list `["pH Level"]` is duplicate-free. -/
theorem reachable_parameters_nodup_witness :
    Reachable (handleParameterToggle initialState "pH Level") ∧
    (handleParameterToggle initialState "pH Level").formData.parameters.Nodup :=
  ⟨Reachable.toggleParameter "pH Level" Reachable.init,
   reachable_parameters_nodup.1 _ (Reachable.toggleParameter "pH Level" Reachable.init)⟩

/-- The spread with a computed key stores the value under that key, creating
the property when absent and overwriting it when present. -/
theorem getKey_setKey (obj : List (String × JSValue)) (k : String) (v : JSValue) :
    getKey (setKey obj k v) k = some v := by
  induction obj with
  | nil => simp [setKey, getKey]
  | cons kv rest ih =>
      obtain ⟨k0, v0⟩ := kv
      by_cases hk : k0 = k
      · simp [setKey, getKey, hk]
      · simp [setKey, getKey, hk, ih]

/-- C10: for every key `questionId` (not only the two declared question
identifiers) and every string `value`, the form update of
`handleOptionSelect` writes `value` under `questionId` in the raw form
object, creating or overwriting that property; in particular, on the initial
form object it overwrites `location` with the string, and replaces the
`parameters` list with the plain string `value`. -/
theorem selectOption_writes_dynamic_key :
    (∀ (obj : List (String × JSValue)) (questionId value : String),
      getKey (jsHandleOptionSelect obj questionId value) questionId =
        some (JSValue.str value)) ∧
    jsHandleOptionSelect initialFormObject "location" "Jaipur" =
      [("reportType", JSValue.str ""), ("location", JSValue.str "Jaipur"),
       ("period", JSValue.str ""), ("parameters", JSValue.strList [])] ∧
    jsHandleOptionSelect initialFormObject "parameters" "pH Level" =
      [("reportType", JSValue.str ""), ("location", JSValue.str ""),
       ("period", JSValue.str ""), ("parameters", JSValue.str "pH Level")] :=
  ⟨fun obj questionId value => getKey_setKey obj questionId (JSValue.str value),
   by decide, by decide⟩

end AIReports
